import Mathlib

/-
Verification of the task parsing-and-ordering pipeline of `tasksched.cpp`
and of the answer-index normalization of `quiz.cpp`.

The C++ code is shallowly embedded: `std::string` values become `List Char`,
`time_t` becomes `Int` (with the untimed sentinel `-1`), `std::queue` contents
become `List` (front of queue = head of list), and the throwing
`operator==` becomes a function into `Except String Bool` carrying the
exception message.
-/

namespace TaskSched

/-- Whitespace set used by the parser.
Source: `constexpr const char* WHITESPACE = " \t\f\v\n\r";` -/
def isWS (c : Char) : Bool :=
  c = ' ' || c = '\t' || c = Char.ofNat 12 || c = Char.ofNat 11 || c = '\n' || c = '\r'

/-- One task. Source: `class CTask` with `time_t m_Time` (`-1` when untimed)
and `std::string m_Description`. -/
structure CTask where
  time : Int
  description : List Char
deriving DecidableEq

/-- Source: `bool operator<(const CTask& task1, const CTask& task2)`:
returns `true` for the "particular case for non-timed tasks"
(`task1.m_Time == -1`), and compares the timestamps otherwise. -/
def taskLt (task1 task2 : CTask) : Bool :=
  if task1.time = -1 then true
  else decide (task1.time < task2.time)

/-- Source: `bool operator>(const CTask& task1, const CTask& task2)`,
defined as `task2 < task1`. This is the only comparison ever invoked by
the sort (via `std::greater<T>`). -/
def taskGt (task1 task2 : CTask) : Bool :=
  taskLt task2 task1

/-- Source: `bool operator==(const CTask& task1, const CTask& task2)`:
equal times with different descriptions throw
`std::runtime_error("Colliding tasks!")`; the error is modelled as the
`Except.error` case carrying the exception message.  The address shortcut
`&task1 == &task2` is dropped: for identical values both branches agree. -/
def taskEq (task1 task2 : CTask) : Except String Bool :=
  if task1.time = task2.time then
    if task1.description ≠ task2.description then Except.error "Colliding tasks!"
    else Except.ok true
  else Except.ok false

/-- One insertion step of the sort.  Models the placement discipline of
`std::sort(tmpArray.begin(), tmpArray.end(), std::greater<T>())`:
an element moves ahead of another exactly when `operator>` holds, so ties
under the comparator keep their relative position unspecified; this model
fixes one admissible outcome.  Only `taskGt` (hence only `operator<`) is
ever consulted. -/
def insertDesc (x : CTask) : List CTask → List CTask
  | [] => [x]
  | y :: ys => if taskGt x y then x :: y :: ys else y :: insertDesc x ys

/-- The descending-sorted vector produced inside the template `sort`:
`std::sort` with `std::greater<T>` as comparison predicate. -/
def sortDesc : List CTask → List CTask
  | [] => []
  | x :: xs => insertDesc x (sortDesc xs)

/-- Source: `template <typename T> void sort(std::queue<T>& queue)`:
the queue is dumped front-to-back into a vector, the vector is sorted in
descending order with `std::greater<T>`, and the queue is refilled by
repeatedly pushing `tmpArray.back()`, i.e. the reversal of the vector:
the resulting queue is ascending. -/
def sortQueue (queue : List CTask) : List CTask :=
  (sortDesc queue).reverse

/-- Reads one or two digits, as the `%H` / `%M` conversions of
`std::get_time` / `strptime` do: up to two digits are consumed greedily,
and the remaining characters are returned. -/
def readNum2 : List Char → Option (Nat × List Char)
  | [] => none
  | c :: rest =>
    if c.isDigit then
      match rest with
      | c2 :: rest2 =>
        if c2.isDigit then some (10 * (c.toNat - 48) + (c2.toNat - 48), rest2)
        else some (c.toNat - 48, rest)
      | [] => some (c.toNat - 48, [])
    else none

/-- Source: `(std::istringstream(timestr) >> std::get_time(&tm_time, "%H:%M")).fail()`
(resp. `strptime(timestr.c_str(), "%H:%M", &tm_time)`): one or two hour
digits with value at most 23, a literal `:`, one or two minute digits with
value at most 59; characters after the minutes are ignored. -/
def parseHHMM (s : List Char) : Option (Nat × Nat) :=
  match readNum2 s with
  | none => none
  | some (h, rest) =>
    if h ≤ 23 then
      match rest with
      | ':' :: rest2 =>
        match readNum2 rest2 with
        | none => none
        | some (m, _) => if m ≤ 59 then some (h, m) else none
      | _ => none
    else none

/-- Source: `pos = line.find_last_not_of(WHITESPACE);
line.substr(0, pos != npos ? pos + 1 : 0)` — trailing-whitespace trim. -/
def trimTrailing (s : List Char) : List Char :=
  (s.reverse.dropWhile isWS).reverse

/-- The candidate time token: the leading-whitespace trim
(`find_first_not_of` + `substr`) followed by
`timestr = line.substr(0, line.find_first_of(WHITESPACE))`. -/
def timeToken (line : List Char) : List Char :=
  (line.dropWhile isWS).takeWhile (fun c => !isWS c)

/-- What remains of the line after the time token and the whitespace
following it: `line = line.substr(pos ...)` (skip the token) followed by
the `find_first_not_of` trim. -/
def afterToken (line : List Char) : List Char :=
  ((line.dropWhile isWS).dropWhile (fun c => !isWS c)).dropWhile isWS

/-- Outcome of parsing one input line. -/
inductive ParsedLine where
  | noTask : ParsedLine
  | simple (description : List Char) : ParsedLine
  | timed (hour minute : Nat) (description : List Char) : ParsedLine
deriving DecidableEq

/-- The body of the line-parsing loop of `main`: trim, take the candidate
token, try `%H:%M` on it; on success the description is the trailing-trimmed
remainder, on failure it is the whole trimmed line; an empty description
means the entry is skipped (`continue`). -/
def parseLine (line : List Char) : ParsedLine :=
  match parseHHMM (timeToken line) with
  | some (h, m) =>
    if trimTrailing (afterToken line) = [] then ParsedLine.noTask
    else ParsedLine.timed h m (trimTrailing (afterToken line))
  | none =>
    if trimTrailing (line.dropWhile isWS) = [] then ParsedLine.noTask
    else ParsedLine.simple (trimTrailing (line.dropWhile isWS))

/-- Resolution of a parsed `HH:MM` against today's local midnight:
`tm_time = tm_today` (today at 00:00:00) with `tm_hour`/`tm_min` replaced,
then `mktime`.  `today` is the epoch value of today's midnight. -/
def resolveTime (today : Int) (hour minute : Nat) : Int :=
  today + 3600 * (hour : Int) + 60 * (minute : Int)

/-- The task constructed from one parsed line, as in
`tasks[SIMPLE_TASKS].emplace(description)` (sentinel time `-1`) and
`tasks[TIMED_TASKS].emplace(&tm_time, description)`. -/
def taskOfLine (today : Int) (line : List Char) : Option CTask :=
  match parseLine line with
  | ParsedLine.noTask => none
  | ParsedLine.simple d => some ⟨-1, d⟩
  | ParsedLine.timed h m d => some ⟨resolveTime today h m, d⟩

/-- The two task queues: `tasks[SIMPLE_TASKS]` and `tasks[TIMED_TASKS]`. -/
structure TaskStore where
  simpleTasks : List CTask
  timedTasks : List CTask
deriving DecidableEq

/-- Processing of one line inside the parse loop: append the new task to
the back of the correct queue, or keep the store unchanged when the line
yields no task. -/
def addLine (today : Int) (store : TaskStore) (line : List Char) : TaskStore :=
  match parseLine line with
  | ParsedLine.noTask => store
  | ParsedLine.simple d => { store with simpleTasks := store.simpleTasks ++ [⟨-1, d⟩] }
  | ParsedLine.timed h m d =>
      { store with timedTasks := store.timedTasks ++ [⟨resolveTime today h m, d⟩] }

/-- The whole parse loop over a list of already-extracted lines. -/
def buildStore (today : Int) (ls : List (List Char)) : TaskStore :=
  ls.foldl (addLine today) ⟨[], []⟩

/-- The `std::getline` loop: characters are accumulated until a newline is
consumed; when the end of the stream is reached the loop observes
`cin.eof()` and breaks, discarding the partial line read by the final
`getline` call. -/
def readLinesAux (acc : List Char) : List Char → List (List Char)
  | [] => []
  | c :: s => if c = '\n' then acc :: readLinesAux [] s else readLinesAux (acc ++ [c]) s

/-- The lines actually processed from an input stream. -/
def readLines (stream : List Char) : List (List Char) :=
  readLinesAux [] stream

/-- The full pipeline up to presentation: read the lines, build the two
queues, then `sort(tasks[TIMED_TASKS])`. -/
def runPipeline (today : Int) (stream : List Char) : TaskStore :=
  let store := buildStore today (readLines stream)
  { store with timedTasks := sortQueue store.timedTasks }

/-- Observable actions of the run-mode loop. -/
inductive Event where
  | current (task : CTask)
  | preview (task : CTask)
  | sleepUntil (time : Int)
deriving DecidableEq

/-- The run-mode loop over the sorted timed queue: print the front task as
current and pop it; if the queue became empty, break; otherwise print the
new front as the upcoming preview and
`std::this_thread::sleep_until(system_clock::from_time_t(task.time()))`. -/
def runTrace : List CTask → List Event
  | [] => []
  | [t] => [Event.current t]
  | t :: u :: rest =>
      Event.current t :: Event.preview u :: Event.sleepUntil u.time :: runTrace (u :: rest)

end TaskSched

namespace Quiz

/-- One quiz question. Source: `class Question` in `quiz.cpp` with fields
`m_question`, `m_choices` and the stored `m_answer` index. -/
structure Question where
  question : List Char
  choices : List (List Char)
  answer : Nat
deriving DecidableEq

/-- Source: `Question::Question`: the constructor body normalizes the
answer index with
`m_answer = std::min(std::max(answer, size_t(1)), m_choices.size());`. -/
def mkQuestion (question : List Char) (answer : Nat)
    (choices : List (List Char)) : Question :=
  { question := question, choices := choices
    answer := min (max answer 1) choices.length }

/-- The inputs the `Question::Ask` retry loop accepts: `1 <= answer` and
`answer <= maxAns` where `maxAns = std::max(size_t(1), m_choices.size())`. -/
def acceptedInput (q : Question) (userAnswer : Nat) : Prop :=
  1 ≤ userAnswer ∧ userAnswer ≤ max 1 q.choices.length

/-- The verdict `Question::Ask` prints and returns: `answer == m_answer`. -/
def askIsCorrect (q : Question) (userAnswer : Nat) : Bool :=
  userAnswer == q.answer

end Quiz

/-
Helper lemmas.
-/

namespace TaskSched

/-- Any hour/minute pair accepted by the `%H:%M` parse is in range. -/
theorem parseHHMM_bounds {s : List Char} {h m : Nat}
    (hp : parseHHMM s = some (h, m)) : h ≤ 23 ∧ m ≤ 59 := by
  unfold parseHHMM at hp
  split at hp
  · simp at hp
  · split at hp
    · split at hp
      · split at hp
        · simp at hp
        · split at hp
          · simp_all
          · simp at hp
      · simp at hp
    · simp at hp

/-- An element that `operator>` never moves forward is inserted at the end. -/
theorem insertDesc_of_forall_not_gt (x : CTask) (l : List CTask)
    (h : ∀ y ∈ l, taskGt x y = false) : insertDesc x l = l ++ [x] := by
  induction l with
  | nil => rfl
  | cons y ys ih =>
      simp only [insertDesc, h y (List.mem_cons_self y ys), Bool.false_eq_true, if_false]
      rw [ih (fun z hz => h z (List.mem_cons_of_mem y hz))]
      simp

/-- On a queue already ascending for the comparator, the descending sort
pass produces exactly the reversed queue. -/
theorem sortDesc_of_sorted (l : List CTask)
    (h : l.Pairwise (fun a b => taskGt a b = false)) : sortDesc l = l.reverse := by
  induction l with
  | nil => rfl
  | cons x xs ih =>
      rw [List.pairwise_cons] at h
      simp only [sortDesc]
      rw [ih h.2, insertDesc_of_forall_not_gt]
      · simp
      · intro y hy
        exact h.1 y (by simpa using hy)

/-- A time-ascending list of timed tasks is pairwise non-descending for
the comparator `operator>`. -/
theorem pairwise_not_gt (l : List CTask) :
    l.Pairwise (fun a b => a.time ≤ b.time) →
    (∀ t ∈ l, t.time ≠ -1) →
    l.Pairwise (fun a b => taskGt a b = false) := by
  induction l with
  | nil => intro _ _; constructor
  | cons x xs ih =>
      intro hsorted htimed
      rw [List.pairwise_cons] at hsorted ⊢
      refine ⟨?_, ih hsorted.2 (fun t ht => htimed t (List.mem_cons_of_mem x ht))⟩
      intro y hy
      have hyt : y.time ≠ -1 := htimed y (List.mem_cons_of_mem x hy)
      have hle : x.time ≤ y.time := hsorted.1 y hy
      simp only [taskGt, taskLt, hyt, if_false, ite_false, decide_eq_false_iff_not]
      omega

/-- The getline loop yields nothing from a stream with no newline at all:
the first read already hits end-of-stream. -/
theorem readLinesAux_no_newline (t : List Char) (hnl : ∀ c ∈ t, ¬ c = '\n') :
    ∀ acc, readLinesAux acc t = [] := by
  induction t with
  | nil => intro acc; rfl
  | cons c s ih =>
      intro acc
      simp only [readLinesAux, if_neg (hnl c (List.mem_cons_self c s))]
      exact ih (fun d hd => hnl d (List.mem_cons_of_mem c hd)) _

/-- Appending newline-free characters to a stream does not change the
lines the getline loop yields. -/
theorem readLinesAux_append_no_newline (t : List Char) (hnl : ∀ c ∈ t, ¬ c = '\n')
    (s : List Char) : ∀ acc, readLinesAux acc (s ++ t) = readLinesAux acc s := by
  induction s with
  | nil =>
      intro acc
      rw [List.nil_append, readLinesAux_no_newline t hnl acc]
      rfl
  | cons c s2 ih =>
      intro acc
      by_cases hc : c = '\n' <;> simp [readLinesAux, hc, ih]

/-
Claim theorems.
-/

/-- C1: the claim says the sorting/validation step over the timed queue
reports a CollisionError naming the shared time and both descriptions.
The code does not: `std::sort` with `std::greater<CTask>` compares only
through `operator>`/`operator<` and never calls the throwing `operator==`,
so for the input `"6:00  Wake up\n6:00  Shower\n"` the pipeline silently
orders the two colliding tasks and produces a schedule.  The only
collision check in the program, `operator==`, does reject the pair, and
with a fixed message that names neither the time nor the descriptions. -/
theorem collision_never_reported_by_sort :
    (runPipeline 0 ("6:00  Wake up\n6:00  Shower\n".toList)).timedTasks =
      [⟨21600, "Wake up".toList⟩, ⟨21600, "Shower".toList⟩] ∧
    taskEq ⟨21600, "Wake up".toList⟩ ⟨21600, "Shower".toList⟩ =
      Except.error "Colliding tasks!" :=
  ⟨by decide, rfl⟩

/-- C2 counterexample: the comparison relation is not irreflexive and not
asymmetric on untimed tasks: an untimed task compares less than itself,
and two untimed tasks with different descriptions each compare less than
the other, so the relation is not a strict weak ordering over all task
values as the claim states. -/
theorem taskLt_untimed_reflexive_cex :
    taskLt ⟨-1, ['A']⟩ ⟨-1, ['A']⟩ = true ∧
    taskLt ⟨-1, ['A']⟩ ⟨-1, ['B']⟩ = true ∧
    taskLt ⟨-1, ['B']⟩ ⟨-1, ['A']⟩ = true := by decide

/-- C2 (amended): on tasks with resolved (non-sentinel) times the
comparison is irreflexive, asymmetric and transitive, and a task with the
unresolved sentinel time `-1` compares as less than any task; but an
untimed task also compares less than itself, so the relation is not
irreflexive on untimed tasks. -/
theorem taskLt_swo_on_timed_amended (t1 t2 t3 u : CTask)
    (h1 : t1.time ≠ -1) (h2 : t2.time ≠ -1) (h3 : t3.time ≠ -1) (hu : u.time = -1)
    (hlt12 : taskLt t1 t2 = true) (hlt23 : taskLt t2 t3 = true) :
    taskLt t1 t1 = false ∧ taskLt t2 t1 = false ∧ taskLt t1 t3 = true ∧
    taskLt u t1 = true ∧ taskLt u u = true := by
  simp only [taskLt, h1, h2, h3, hu] at *
  simp at *
  omega

/-- C2 witness: the amended ordering facts at concrete tasks. -/
theorem taskLt_swo_on_timed_amended_witness :
    taskLt ⟨100, ['A']⟩ ⟨100, ['A']⟩ = false ∧
    taskLt ⟨200, ['B']⟩ ⟨100, ['A']⟩ = false ∧
    taskLt ⟨100, ['A']⟩ ⟨300, ['C']⟩ = true ∧
    taskLt ⟨-1, ['U']⟩ ⟨100, ['A']⟩ = true ∧
    taskLt ⟨-1, ['U']⟩ ⟨-1, ['U']⟩ = true :=
  taskLt_swo_on_timed_amended ⟨100, ['A']⟩ ⟨200, ['B']⟩ ⟨300, ['C']⟩ ⟨-1, ['U']⟩
    (by decide) (by decide) (by decide) (by decide) (by decide) (by decide)

/-- C3 counterexample: the claim says the duplicated line collapses so
that the scenario input yields exactly two timed tasks; the pipeline
keeps all three parsed tasks. -/
theorem duplicate_line_not_collapsed_cex :
    (runPipeline 0 ("6:00  Wake up\n7:00  Breakfast\n6:00  Wake up\n".toList)).timedTasks.length
      = 3 := by decide

/-- C3 (amended): two tasks with equal resolved time and equal
description are not a collision — `operator==` returns true without
error — but they are not collapsed either: the scenario input yields
three timed tasks, with 06:00 Wake up kept twice, sorted without error. -/
theorem duplicate_line_kept_without_collision :
    (runPipeline 0 ("6:00  Wake up\n7:00  Breakfast\n6:00  Wake up\n".toList)).timedTasks =
      [⟨21600, "Wake up".toList⟩, ⟨21600, "Wake up".toList⟩, ⟨25200, "Breakfast".toList⟩] ∧
    taskEq ⟨21600, "Wake up".toList⟩ ⟨21600, "Wake up".toList⟩ = Except.ok true :=
  ⟨by decide, rfl⟩

/-- C4: a line whose first whitespace-delimited token parses as a valid
`HH:MM` time (hour at most 23, minute at most 59, single leading hour
digit accepted) and whose remainder trims to a non-empty string yields a
timed task whose time is the hour and minute resolved against today's
local midnight and whose description is the trimmed remainder. -/
theorem timed_line_yields_timed_task (today : Int) (line : List Char) (h m : Nat)
    (htime : parseHHMM (timeToken line) = some (h, m))
    (hdesc : trimTrailing (afterToken line) ≠ []) :
    h ≤ 23 ∧ m ≤ 59 ∧
    taskOfLine today line = some ⟨resolveTime today h m, trimTrailing (afterToken line)⟩ := by
  obtain ⟨hb1, hb2⟩ := parseHHMM_bounds htime
  refine ⟨hb1, hb2, ?_⟩
  simp only [taskOfLine, parseLine, htime, if_neg hdesc]

/-- C4 witness: the line `6:00  Wake up` parsed with today at epoch 0. -/
theorem timed_line_yields_timed_task_witness :
    (6 : Nat) ≤ 23 ∧ (0 : Nat) ≤ 59 ∧
    taskOfLine 0 ("6:00  Wake up".toList) = some ⟨21600, "Wake up".toList⟩ :=
  timed_line_yields_timed_task 0 ("6:00  Wake up".toList) 6 0 (by decide) (by decide)

/-- C5: a line whose first token does not parse as a time and whose
trimmed content is non-empty yields an untimed task with the sentinel
time `-1` and the fully trimmed line as description; the failed time
parse is an ordinary branch producing a task, not an error. -/
theorem unparsed_time_yields_simple_task (today : Int) (line : List Char)
    (htime : parseHHMM (timeToken line) = none)
    (hdesc : trimTrailing (line.dropWhile isWS) ≠ []) :
    taskOfLine today line = some ⟨-1, trimTrailing (line.dropWhile isWS)⟩ := by
  simp only [taskOfLine, parseLine, htime, if_neg hdesc]

/-- C5 witness: a generic task line with surrounding whitespace. -/
theorem unparsed_time_yields_simple_task_witness :
    taskOfLine 0 ("  Generic Task  ".toList) = some ⟨-1, "Generic Task".toList⟩ :=
  unparsed_time_yields_simple_task 0 ("  Generic Task  ".toList) (by decide) (by decide)

/-- C6: sorting is idempotent — a queue of timed, non-colliding tasks
already in ascending time order is returned unchanged by the sort. -/
theorem sortQueue_idempotent_on_sorted (l : List CTask)
    (hsorted : l.Pairwise (fun a b => a.time ≤ b.time))
    (hcoll : l.Pairwise (fun a b => a.time = b.time → a.description = b.description))
    (htimed : ∀ t ∈ l, t.time ≠ -1) :
    sortQueue l = l := by
  rw [sortQueue, sortDesc_of_sorted l (pairwise_not_gt l hsorted htimed), List.reverse_reverse]

/-- C6 witness: an already-sorted two-element queue is unchanged. -/
theorem sortQueue_idempotent_on_sorted_witness :
    sortQueue [⟨3600, ['A']⟩, ⟨7200, ['B']⟩] = [⟨3600, ['A']⟩, ⟨7200, ['B']⟩] :=
  sortQueue_idempotent_on_sorted [⟨3600, ['A']⟩, ⟨7200, ['B']⟩]
    (by decide) (by decide) (by decide)

/-- C7: a line that is empty or whitespace-only, or that consists of a
valid time token followed by nothing but whitespace, yields no task, and
processing it leaves the previously accumulated task queues unchanged. -/
theorem degenerate_line_yields_no_task (today : Int) (store : TaskStore) (line : List Char)
    (h : (∀ c ∈ line, isWS c = true) ∨
         ∃ hh mm, parseHHMM (timeToken line) = some (hh, mm) ∧
           trimTrailing (afterToken line) = []) :
    parseLine line = ParsedLine.noTask ∧ addLine today store line = store := by
  have hparse : parseLine line = ParsedLine.noTask := by
    rcases h with hws | ⟨hh, mm, hp, hd⟩
    · have hdrop : line.dropWhile isWS = [] := by
        rw [List.dropWhile_eq_nil_iff]
        exact hws
      have htok : timeToken line = [] := by rw [timeToken, hdrop]; rfl
      simp [parseLine, htok, parseHHMM, readNum2, hdrop, trimTrailing]
    · simp only [parseLine, hp, hd, if_pos]
  refine ⟨hparse, ?_⟩
  simp only [addLine, hparse]

/-- C7 witness: the line `6:30`, a bare time token, is discarded. -/
theorem degenerate_line_yields_no_task_witness :
    parseLine ("6:30".toList) = ParsedLine.noTask ∧
    addLine 0 ⟨[], []⟩ ("6:30".toList) = ⟨[], []⟩ :=
  degenerate_line_yields_no_task 0 ⟨[], []⟩ ("6:30".toList)
    (Or.inr ⟨6, 30, by decide, by decide⟩)

/-- C8: on a non-empty sorted timed queue the run-mode loop prints each
consumed task as current, and between two consecutive tasks — and only
there — prints the next task's preview and suspends until that task's
resolved time; after the last task's current line no suspension occurs. -/
theorem run_mode_trace_shape (l : List CTask) :
    l ≠ [] →
    runTrace l =
      ((l.zip l.tail).map
        (fun p => [Event.current p.1, Event.preview p.2, Event.sleepUntil p.2.time])).flatten ++
      [Event.current (l.getLastD ⟨0, []⟩)] := by
  induction l with
  | nil => intro h; exact absurd rfl h
  | cons t rest ih =>
      intro _
      cases rest with
      | nil => simp [runTrace]
      | cons u rest2 =>
          have ih2 := ih (by simp)
          simp only [runTrace, ih2]
          simp [List.getLastD_cons]

/-- C8 witness: the run trace of a two-task queue. -/
theorem run_mode_trace_shape_witness :
    runTrace [⟨60, ['A']⟩, ⟨120, ['B']⟩] =
      [Event.current ⟨60, ['A']⟩, Event.preview ⟨120, ['B']⟩,
       Event.sleepUntil 120, Event.current ⟨120, ['B']⟩] :=
  run_mode_trace_shape [⟨60, ['A']⟩, ⟨120, ['B']⟩] (by decide)

/-- C9: trailing characters not terminated by a newline never become a
task: the pipeline over a stream extended by a newline-free suffix equals
the pipeline over the stream without it, because the parsing loop breaks
on end-of-stream before processing the partial line. -/
theorem unterminated_final_line_ignored (today : Int) (s t : List Char)
    (hnl : ∀ c ∈ t, ¬ c = '\n') :
    runPipeline today (s ++ t) = runPipeline today s := by
  unfold runPipeline readLines
  rw [readLinesAux_append_no_newline t hnl s]

/-- C9 witness: an unterminated final task line contributes nothing. -/
theorem unterminated_final_line_ignored_witness :
    runPipeline 0 ("6:00  Wake up\n".toList ++ "7:00  Partial".toList) =
      runPipeline 0 ("6:00  Wake up\n".toList) :=
  unterminated_final_line_ignored 0 ("6:00  Wake up\n".toList)
    ("7:00  Partial".toList) (by decide)

end TaskSched

namespace Quiz

/-- C10: the constructor silently clamps the answer index to
`min (max a 1) n` — inside `1..n` for a non-empty choice list of size
`n` — and stores `0` for an empty choice list, in which case no input the
ask loop accepts is ever judged correct. -/
theorem answer_index_clamped (question : List Char) (a u : Nat)
    (choices : List (List Char)) :
    (0 < choices.length →
      (mkQuestion question a choices).answer = min (max a 1) choices.length ∧
      1 ≤ (mkQuestion question a choices).answer ∧
      (mkQuestion question a choices).answer ≤ choices.length) ∧
    (choices.length = 0 →
      (mkQuestion question a choices).answer = 0 ∧
      (acceptedInput (mkQuestion question a choices) u →
        askIsCorrect (mkQuestion question a choices) u = false)) := by
  have hans : (mkQuestion question a choices).answer = min (max a 1) choices.length := rfl
  constructor
  · intro h
    refine ⟨hans, ?_, ?_⟩ <;> rw [hans] <;> omega
  · intro h
    have h0 : (mkQuestion question a choices).answer = 0 := by rw [hans, h]; omega
    refine ⟨h0, ?_⟩
    intro hu
    have hu2 : u ≤ max 1 (mkQuestion question a choices).choices.length := hu.2
    have hch : (mkQuestion question a choices).choices.length = 0 := h
    have hueq : u = 1 := by
      have hu1 : 1 ≤ u := hu.1
      omega
    simp only [askIsCorrect, h0, hueq]
    decide

/-- C10 witness: index 5 with two choices is stored clamped; with no
choices the stored index is 0 and the only accepted input 1 is judged
incorrect. -/
theorem answer_index_clamped_witness :
    (mkQuestion [] 5 [['A'], ['B']]).answer = min (max 5 1) 2 ∧
    (mkQuestion [] 7 []).answer = 0 ∧
    askIsCorrect (mkQuestion [] 7 []) 1 = false :=
  ⟨((answer_index_clamped [] 5 1 [['A'], ['B']]).1 (by decide)).1,
   ((answer_index_clamped [] 7 1 []).2 rfl).1,
   ((answer_index_clamped [] 7 1 []).2 rfl).2 (by constructor <;> decide)⟩

end Quiz
